import Mathlib

/-!
Verification of the PKI 2FA microservice (`src/app/main.py`).

The repository ships `app/main.py` (the FastAPI boundary), which imports the
TOTP engine (`totp_utils`), the seed cipher (`crypto_utils`) and configuration
from sibling modules that are not part of the delivered sources.  The HTTP
handlers below are embedded directly from `main.py`; the missing engine
modules are modelled from the specification (its RFC 6238 / RFC 4226
description of `generate`/`verify` and its failure taxonomy for
`decrypt_seed`), as marked on each definition.

Machine integers are `Nat` with explicit reduction `% 2 ^ 32` (or `% 256`,
`% 2 ^ 64`) where the 32-bit / byte arithmetic of the algorithm demands it.
Byte strings are `List Nat` of values below 256.
-/

set_option maxRecDepth 100000

namespace PKI2FA

/-! ### SHA-1 (FIPS 180, as used by HMAC-SHA1 in the TOTP engine)

Modelled from the spec: `totp_utils` is absent from the delivered sources;
the spec prescribes `HMAC-SHA1(secretBytes, counterBytes) -> 20-byte digest`,
so the standard SHA-1 compression function is embedded here. -/

/-- Left rotation of a 32-bit word. -/
def rotl32 (n x : Nat) : Nat :=
  ((x <<< n) ||| (x >>> (32 - n))) % 2 ^ 32

/-- Big-endian bytes of a 64-bit quantity (8 bytes). -/
def bytes8BE (n : Nat) : List Nat :=
  [ (n >>> 56) % 256, (n >>> 48) % 256, (n >>> 40) % 256, (n >>> 32) % 256,
    (n >>> 24) % 256, (n >>> 16) % 256, (n >>> 8) % 256, n % 256 ]

/-- Group a byte list into big-endian 32-bit words (4 bytes each). -/
def toWordsBE : List Nat → List Nat
  | b0 :: b1 :: b2 :: b3 :: rest =>
      ((b0 <<< 24) ||| (b1 <<< 16) ||| (b2 <<< 8) ||| b3) :: toWordsBE rest
  | _ => []

/-- Big-endian bytes of a list of 32-bit words. -/
def wordsToBytesBE : List Nat → List Nat
  | [] => []
  | w :: ws =>
      (w >>> 24) % 256 :: (w >>> 16) % 256 :: (w >>> 8) % 256 :: w % 256 ::
        wordsToBytesBE ws

/-- SHA-1 message padding: append `0x80`, zero bytes up to 56 mod 64, then the
bit length as 8 big-endian bytes. -/
def sha1Pad (msg : List Nat) : List Nat :=
  msg ++ [0x80] ++ List.replicate ((119 - msg.length % 64) % 64) 0 ++
    bytes8BE (8 * msg.length)

/-- Message-schedule expansion: given the 16 block words (most recent first in
`acc`), produce the remaining words; returns all words, oldest first. -/
def sha1ExpandGo : Nat → List Nat → List Nat
  | 0, acc => acc.reverse
  | n + 1, acc =>
      let w := rotl32 1 (acc.getD 2 0 ^^^ acc.getD 7 0 ^^^ acc.getD 13 0 ^^^
        acc.getD 15 0)
      sha1ExpandGo n (w :: acc)

/-- Expand 16 words to the 80-word SHA-1 message schedule. -/
def sha1Expand (ws : List Nat) : List Nat :=
  sha1ExpandGo 64 ws.reverse

/-- SHA-1 round function `f_t`. -/
def sha1f (t b c d : Nat) : Nat :=
  if t < 20 then (b &&& c) ||| ((b ^^^ 0xFFFFFFFF) &&& d)
  else if t < 40 then b ^^^ c ^^^ d
  else if t < 60 then (b &&& c) ||| (b &&& d) ||| (c &&& d)
  else b ^^^ c ^^^ d

/-- SHA-1 round constant `K_t`. -/
def sha1k (t : Nat) : Nat :=
  if t < 20 then 0x5A827999
  else if t < 40 then 0x6ED9EBA1
  else if t < 60 then 0x8F1BBCDC
  else 0xCA62C1D6

/-- The 80 SHA-1 rounds over the message schedule. -/
def sha1Rounds : List Nat → Nat → Nat × Nat × Nat × Nat × Nat →
    Nat × Nat × Nat × Nat × Nat
  | [], _, s => s
  | w :: ws, t, (a, b, c, d, e) =>
      let temp := (rotl32 5 a + sha1f t b c d + e + sha1k t + w) % 2 ^ 32
      sha1Rounds ws (t + 1) (temp, a, rotl32 30 b, c, d)

/-- One SHA-1 block compression over the running hash `h` (5 words). -/
def sha1Block (h : List Nat) (block : List Nat) : List Nat :=
  let ws := sha1Expand (toWordsBE block)
  let s := sha1Rounds ws 0 (h.getD 0 0, h.getD 1 0, h.getD 2 0, h.getD 3 0,
    h.getD 4 0)
  match s with
  | (a, b, c, d, e) =>
      [ (h.getD 0 0 + a) % 2 ^ 32, (h.getD 1 0 + b) % 2 ^ 32,
        (h.getD 2 0 + c) % 2 ^ 32, (h.getD 3 0 + d) % 2 ^ 32,
        (h.getD 4 0 + e) % 2 ^ 32 ]

/-- Split a (padded) byte list into `n` blocks of 64 bytes. -/
def chunks64 : Nat → List Nat → List (List Nat)
  | 0, _ => []
  | n + 1, l => l.take 64 :: chunks64 n (l.drop 64)

/-- SHA-1 initial hash value. -/
def sha1InitH : List Nat :=
  [0x67452301, 0xEFCDAB89, 0x98BADCFE, 0x10325476, 0xC3D2E1F0]

/-- SHA-1 of a byte list, as a 20-byte digest. -/
def sha1 (msg : List Nat) : List Nat :=
  let padded := sha1Pad msg
  wordsToBytesBE ((chunks64 (padded.length / 64) padded).foldl sha1Block
    sha1InitH)

/-- HMAC-SHA1 (RFC 2104): keys longer than the 64-byte block are hashed first,
then zero-padded; inner pad `0x36`, outer pad `0x5C`. -/
def hmacSha1 (key msg : List Nat) : List Nat :=
  let k := if 64 < key.length then sha1 key else key
  let k0 := k ++ List.replicate (64 - k.length) 0
  sha1 (k0.map (· ^^^ 0x5C) ++ sha1 (k0.map (· ^^^ 0x36) ++ msg))

/-! ### TOTP engine

Modelled from the spec: `totp_utils` (`generate_totp_code`, `verify_totp_code`)
is absent from the delivered sources; `generate` and `verify` follow the
spec's RFC 6238 / RFC 4226 contracts A and B word for word.  The clock the
real code reads implicitly is passed explicitly as `atTime`. -/

/-- Value of one hex digit (upper or lower case accepted, as by a standard
hex decoder). -/
def hexVal (c : Char) : Option Nat :=
  if 48 ≤ c.toNat ∧ c.toNat ≤ 57 then some (c.toNat - 48)
  else if 97 ≤ c.toNat ∧ c.toNat ≤ 102 then some (c.toNat - 87)
  else if 65 ≤ c.toNat ∧ c.toNat ≤ 70 then some (c.toNat - 55)
  else none

/-- Decode a hex string (list of chars) to bytes; `none` on an odd length or
a non-hex character. -/
def hexDecode : List Char → Option (List Nat)
  | [] => some []
  | c1 :: c2 :: rest => do
      let h ← hexVal c1
      let l ← hexVal c2
      let bs ← hexDecode rest
      pure ((16 * h + l) :: bs)
  | [_] => none

/-- The decimal digit character for `d % 10`. -/
def digitChar (d : Nat) : Char :=
  Char.ofNat (48 + d % 10)

/-- Rendering of `n` as a zero-padded decimal string of exactly `digits`
chars (the spec's "zero-padded decimal string of length digits"). -/
def zeroPadDigits (digits n : Nat) : List Char :=
  (List.range digits).map (fun i => digitChar (n / 10 ^ (digits - 1 - i)))

/-- Dynamic truncation (RFC 4226 §5.3): offset from the low 4 bits of the
last digest byte, 4 bytes big-endian with bit 31 cleared. -/
def dynamicTruncate (digest : List Nat) : Nat :=
  let o := digest.getD 19 0 &&& 0xF
  ((digest.getD o 0 &&& 0x7F) <<< 24) ||| (digest.getD (o + 1) 0 <<< 16) |||
    (digest.getD (o + 2) 0 <<< 8) ||| digest.getD (o + 3) 0

/-- HOTP code for a key and counter: HMAC-SHA1 over the 8-byte big-endian
counter, dynamic truncation, reduction mod `10 ^ digits`, zero-padded. -/
def hotp (key : List Nat) (counter : Nat) (digits : Nat) : String :=
  ⟨zeroPadDigits digits (dynamicTruncate (hmacSha1 key (bytes8BE counter)) %
    10 ^ digits)⟩

/-- The TOTP code of a secret (raw bytes) at a timestamp: counter is
`floor(atTime / stepSeconds)` reduced to 8 bytes. -/
def totpCode (secretBytes : List Nat) (atTime : Int) (digits : Nat)
    (stepSeconds : Int) : String :=
  hotp secretBytes (((atTime.fdiv stepSeconds) % (2 ^ 64 : Int)).toNat) digits

/-- Failure taxonomy of the TOTP engine, from the spec's error-handling
design. -/
inductive TotpError
  | computeError
  | validationError
deriving DecidableEq, Repr

/-- Modelled from the spec: contract A of `TotpEngine.generate`
(`generate_totp_code` in the missing `totp_utils`): decode the hex secret,
signal `TotpComputeError` on invalid hex or zero decoded bytes, otherwise
produce the code for counter `floor(atTime / stepSeconds)`. -/
def generate_totp_code (secretHex : String) (atTime : Int)
    (digits : Nat := 6) (stepSeconds : Int := 30) : Except TotpError String :=
  match hexDecode secretHex.toList with
  | none => .error .computeError
  | some [] => .error .computeError
  | some bytes => .ok (totpCode bytes atTime digits stepSeconds)

/-- Decimal digit test for candidate validation. -/
def isDigitChar (c : Char) : Bool :=
  48 ≤ c.toNat && c.toNat ≤ 57

/-- Modelled from the spec: contract B of `TotpEngine.verify`
(`verify_totp_code` in the missing `totp_utils`): signal `ValidationError`
when the candidate is empty or not decimal digits of the expected length;
otherwise compare against `generate(secretHex, atTime + k*stepSeconds)` for
every `k` in `[-window, window]` and accept iff any code matches. -/
def verify_totp_code (secretHex candidate : String) (atTime : Int)
    (window : Nat := 1) (digits : Nat := 6) (stepSeconds : Int := 30) :
    Except TotpError Bool :=
  if candidate.toList = [] ∨
      ¬ (candidate.toList.length = digits ∧
         candidate.toList.all isDigitChar = true) then
    .error .validationError
  else do
    let codes ← (List.range (2 * window + 1)).mapM
      (fun (i : Nat) => generate_totp_code secretHex
        (atTime + ((i : Int) - (window : Int)) * stepSeconds) digits
        stepSeconds)
    pure (codes.any (· == candidate))

/-- Contract C of `TotpEngine`: seconds remaining in the current period. -/
def seconds_remaining_in_period (stepSeconds : Int) (atTime : Int) : Int :=
  stepSeconds - atTime.emod stepSeconds

/-! ### The HTTP handlers of `src/app/main.py`

Embedded from the source.  `SEED_FILE` is the single persistence slot: its
state is `Option String` (`none` when the file does not exist, matching
`SEED_FILE.exists()`); collaborator outcomes the handlers only observe
through `try/except` (key loading, the seed decryption, the file write and
read) enter as explicit parameters. -/

/-- A raised `HTTPException(status_code, detail)`. -/
structure HTTPException where
  status : Nat
  detail : String
deriving DecidableEq, Repr

/-- The exact character set CPython's `str.strip()` removes: U+0009-U+000D,
U+001C-U+0020, U+0085, U+00A0, U+1680, U+2000-U+200A, U+2028, U+2029,
U+202F, U+205F and U+3000. -/
def isPyWS (c : Char) : Bool :=
  (9 ≤ c.toNat && c.toNat ≤ 13) || (28 ≤ c.toNat && c.toNat ≤ 32) ||
    c.toNat = 0x85 || c.toNat = 0xA0 || c.toNat = 0x1680 ||
    (0x2000 ≤ c.toNat && c.toNat ≤ 0x200A) || c.toNat = 0x2028 ||
    c.toNat = 0x2029 || c.toNat = 0x202F || c.toNat = 0x205F ||
    c.toNat = 0x3000

/-- Python `s.strip()` on `String`. -/
def pyStrip (s : String) : String :=
  ⟨((s.toList.dropWhile isPyWS).reverse.dropWhile isPyWS).reverse⟩

/-- Modelled from the spec: the sub-conditions under which the missing
`crypto_utils.decrypt_seed` signals failure (base64 decoding fails, the
ciphertext length is wrong for the key, padding/integrity validation
fails). -/
inductive DecryptFail
  | base64Invalid
  | wrongLength
  | paddingInvalid
deriving DecidableEq, Repr

/-- Endpoint `POST /decrypt-seed` (`decrypt_seed_endpoint`, `main.py` lines 32-58):
key loading, seed decryption and the file write are its collaborators;
the result is paired with the post-state of `SEED_FILE`.  A failed key load
raises `f"Private key load failed: {e}"`; any decryption failure raises
the fixed `"Decryption failed"`; a failed write raises
`"Failed to persist seed"`; on success the seed plus `"\n"` is written. -/
def decrypt_seed_endpoint (keyLoad : Except String Unit)
    (decryptRes : Except DecryptFail String) (writeOk : Bool)
    (seedFile : Option String) :
    Except HTTPException Unit × Option String :=
  match keyLoad with
  | .error e => (.error ⟨500, "Private key load failed: " ++ e⟩, seedFile)
  | .ok _ =>
    match decryptRes with
    | .error _ => (.error ⟨500, "Decryption failed"⟩, seedFile)
    | .ok hex_seed =>
      if writeOk then (.ok (), some (hex_seed ++ "\n"))
      else (.error ⟨500, "Failed to persist seed"⟩, seedFile)

/-- Successful response of `GET /generate-2fa`. -/
structure GenerateResponse where
  code : String
  valid_for : Int
deriving DecidableEq, Repr

/-- Endpoint `GET /generate-2fa` (`generate_2fa`, `main.py` lines 61-85): error when
`SEED_FILE` does not exist or reading fails; otherwise the stored text is
stripped and the TOTP code generated, any engine failure collapsing to
`"Error generating TOTP"`. -/
def generate_2fa (seedFile : Option String) (readOk : Bool) (now : Int) :
    Except HTTPException GenerateResponse :=
  match seedFile with
  | none => .error ⟨500, "Seed not decrypted yet"⟩
  | some content =>
    if readOk then
      match generate_totp_code (pyStrip content) now with
      | .error _ => .error ⟨500, "Error generating TOTP"⟩
      | .ok code => .ok ⟨code, seconds_remaining_in_period 30 now⟩
    else .error ⟨500, "Error reading seed"⟩

/-- Endpoint `POST /verify-2fa` (`verify_2fa`, `main.py` lines 88-116): the request's
`code` field is `str | None = None`; a `None` or whitespace-only code is
rejected with `400 "Missing code"` before the seed-existence check; then
the stored seed is read (stripped) and verified with `valid_window=1`. -/
def verify_2fa (code : Option String) (seedFile : Option String)
    (readOk : Bool) (now : Int) : Except HTTPException Bool :=
  if code = none ∨ pyStrip (code.getD "") = "" then
    .error ⟨400, "Missing code"⟩
  else
    match seedFile with
    | none => .error ⟨500, "Seed not decrypted yet"⟩
    | some content =>
      if readOk then
        match verify_totp_code (pyStrip content) (code.getD "") now 1 with
        | .error _ => .error ⟨500, "Error verifying TOTP"⟩
        | .ok valid => .ok valid
      else .error ⟨500, "Error reading seed"⟩

/-- Lowercase hexadecimal digit test (the alphabet `decrypt_seed` renders the
secret in). -/
def isLowerHexChar (c : Char) : Bool :=
  (48 ≤ c.toNat && c.toNat ≤ 57) || (97 ≤ c.toNat && c.toNat ≤ 102)

/-- The fixed user-facing error messages of the three handlers (besides the
key-load one). -/
def fixedDetails : List String :=
  ["Decryption failed", "Failed to persist seed", "Seed not decrypted yet",
   "Error reading seed", "Error generating TOTP", "Error verifying TOTP",
   "Missing code"]

/-! ### Helper lemmas -/

theorem zeroPadDigits_length (d n : Nat) : (zeroPadDigits d n).length = d := by
  simp [zeroPadDigits]

theorem isDigitChar_digitChar (m : Nat) : isDigitChar (digitChar m) = true := by
  unfold digitChar
  have h : m % 10 < 10 := Nat.mod_lt _ (by norm_num)
  set k := m % 10 with hk
  interval_cases k <;> decide

theorem zeroPadDigits_all (d n : Nat) :
    (zeroPadDigits d n).all isDigitChar = true := by
  simp only [zeroPadDigits, List.all_eq_true]
  intro i hi
  obtain ⟨j, _, rfl⟩ := List.mem_map.mp hi
  exact isDigitChar_digitChar _

theorem totpCode_toList (bs : List Nat) (t : Int) (d : Nat) (st : Int) :
    (totpCode bs t d st).toList =
      zeroPadDigits d
        (dynamicTruncate (hmacSha1 bs
          (bytes8BE ((t.fdiv st % (2 ^ 64 : Int)).toNat))) % 10 ^ d) := rfl

theorem totpCode_length (bs : List Nat) (t : Int) (d : Nat) (st : Int) :
    (totpCode bs t d st).toList.length = d := by
  rw [totpCode_toList]; exact zeroPadDigits_length _ _

theorem totpCode_all_digits (bs : List Nat) (t : Int) (d : Nat) (st : Int) :
    (totpCode bs t d st).toList.all isDigitChar = true := by
  rw [totpCode_toList]; exact zeroPadDigits_all _ _

theorem generate_ok_of_decode {s : String} {b : Nat} {l : List Nat}
    (hdec : hexDecode s.toList = some (b :: l)) (t : Int) :
    generate_totp_code s t = .ok (totpCode (b :: l) t 6 30) := by
  unfold generate_totp_code
  rw [hdec]

theorem generate_ok_elim {s c : String} {t : Int}
    (h : generate_totp_code s t = .ok c) :
    ∃ b l, hexDecode s.toList = some (b :: l) ∧ c = totpCode (b :: l) t 6 30 := by
  unfold generate_totp_code at h
  cases hd : hexDecode s.toList with
  | none => rw [hd] at h; cases h
  | some bs =>
    cases bs with
    | nil => rw [hd] at h; cases h
    | cons b l =>
      rw [hd] at h
      exact ⟨b, l, rfl, (Except.ok.injEq _ _).mp h.symm⟩

theorem mapM_ok_of {α β ε : Type} {f : α → Except ε β} {g : α → β}
    (h : ∀ a, f a = .ok (g a)) (xs : List α) : xs.mapM f = .ok (xs.map g) := by
  rw [← List.mapM'_eq_mapM]
  induction xs with
  | nil => rfl
  | cons a l ih =>
    simp only [List.mapM', h a, List.map_cons, ih]
    rfl

theorem verify_eval {s : String} {b : Nat} {l : List Nat} (cand : String)
    (t : Int) (w : Nat) (hdec : hexDecode s.toList = some (b :: l))
    (hlen : cand.toList.length = 6)
    (hdig : cand.toList.all isDigitChar = true) :
    verify_totp_code s cand t w =
      .ok (((List.range (2 * w + 1)).map
        (fun (i : Nat) =>
          totpCode (b :: l) (t + ((i : Int) - (w : Int)) * 30) 6 30)).any
          (· == cand)) := by
  have hne : cand.toList ≠ [] := by
    intro hn; rw [hn] at hlen; simp at hlen
  unfold verify_totp_code
  rw [if_neg (by push_neg; exact ⟨hne, hlen, hdig⟩)]
  rw [mapM_ok_of (fun i => generate_ok_of_decode hdec _)]
  rfl

theorem not_ws_of_hex {c : Char} (h : isLowerHexChar c = true) :
    isPyWS c = false := by
  simp only [isLowerHexChar, Bool.or_eq_true, Bool.and_eq_true,
    decide_eq_true_eq] at h
  simp only [isPyWS, Bool.or_eq_false_iff, Bool.and_eq_false_iff,
    decide_eq_false_iff_not]
  omega

theorem dropWhile_eq_self_of_all {p : Char → Bool} {l : List Char}
    (h : ∀ c ∈ l, p c = false) : l.dropWhile p = l := by
  cases l with
  | nil => rfl
  | cons a as =>
    have ha := h a (List.mem_cons_self a as)
    rw [List.dropWhile_cons, if_neg (by simp [ha])]

theorem pyStrip_append_newline {l : List Char}
    (h : ∀ c ∈ l, isPyWS c = false) :
    pyStrip ⟨l ++ [Char.ofNat 10]⟩ = ⟨l⟩ := by
  cases l with
  | nil => rfl
  | cons a as =>
    have ha : isPyWS a = false := h a (List.mem_cons_self a as)
    show String.mk _ = _
    congr 1
    rw [show (a :: as) ++ [Char.ofNat 10] = a :: (as ++ [Char.ofNat 10])
      from rfl]
    rw [show (String.mk (a :: (as ++ [Char.ofNat 10]))).toList =
      a :: (as ++ [Char.ofNat 10]) from rfl]
    rw [List.dropWhile_cons, if_neg (by simp [ha])]
    rw [show a :: (as ++ [Char.ofNat 10]) = (a :: as) ++ [Char.ofNat 10]
      from rfl]
    rw [List.reverse_append]
    rw [show ([Char.ofNat 10].reverse ++ (a :: as).reverse) =
      Char.ofNat 10 :: (a :: as).reverse from rfl]
    rw [List.dropWhile_cons, if_pos (by decide)]
    rw [dropWhile_eq_self_of_all
      (fun c hc => h c (List.mem_reverse.mp hc))]
    exact List.reverse_reverse _

/-! ### Claim theorems -/

/-- C1: for the secret hex `3132333435363738393031323334353637383930`
(ASCII "12345678901234567890"), the TOTP code at Unix time 59 with step 30
and 6 digits is exactly `287082`, the RFC 4226/6238 test vector for
counter 1. -/
theorem totp_rfc_vector :
    generate_totp_code "3132333435363738393031323334353637383930" 59 =
      .ok "287082" := by rfl

/-- C3: a freshly generated code verifies at the same time with window 0:
whenever `generate` succeeds on a (valid) hex secret, verifying its output
at that same timestamp with window 0 returns `true`. -/
theorem verify_roundtrip_window0 (s c : String) (t : Int)
    (h : generate_totp_code s t = .ok c) :
    verify_totp_code s c t 0 = .ok true := by
  obtain ⟨b, l, hdec, hc⟩ := generate_ok_elim h
  have hlen : c.toList.length = 6 := by rw [hc]; exact totpCode_length _ _ _ _
  have hdig : c.toList.all isDigitChar = true := by
    rw [hc]; exact totpCode_all_digits _ _ _ _
  rw [verify_eval c t 0 hdec hlen hdig]
  simp only [show List.range (2 * 0 + 1) = [0] from rfl, List.map_cons,
    List.map_nil, List.any_cons, List.any_nil, Bool.or_false]
  have e1 : t + (((0 : Nat) : Int) - ((0 : Nat) : Int)) * 30 = t := by
    push_cast; ring
  rw [e1, ← hc, beq_self_eq_true]

/-- Witness for C3 at the RFC 6238 test vector. -/
theorem verify_roundtrip_window0_witness :
    verify_totp_code "3132333435363738393031323334353637383930" "287082"
      59 0 = .ok true :=
  verify_roundtrip_window0 "3132333435363738393031323334353637383930"
    "287082" 59 (by rfl)

/-- C2 counterexample: for the RFC test secret the codes of the adjacent
counters 910737 and 910738 coincide (both are `911617`), so at
`t = 27322140` the code generated one step in the past is accepted even
with window 0 — the claim's `verify(secret, generate(secret, t-30), t,
window=0) == false` fails at this input. -/
theorem verify_window0_collision :
    generate_totp_code "3132333435363738393031323334353637383930"
      (27322140 - 30) = .ok "911617" ∧
    generate_totp_code "3132333435363738393031323334353637383930"
      27322140 = .ok "911617" ∧
    verify_totp_code "3132333435363738393031323334353637383930" "911617"
      27322140 0 = .ok true := by
  refine ⟨by rfl, by rfl, by rfl⟩

/-- C2 amended: a code generated one step in the past is always accepted
with window 1; with window 0 it is accepted exactly when it coincides with
the current-step code (which can happen, as `verify_window0_collision`
shows), i.e. `verify` returns `c0 == c` where `c0` is the current code. -/
theorem verify_adjacent_window (s c : String) (t : Int)
    (h : generate_totp_code s (t - 30) = .ok c) :
    verify_totp_code s c t 1 = .ok true ∧
    ∀ c0, generate_totp_code s t = .ok c0 →
      verify_totp_code s c t 0 = .ok (c0 == c) := by
  obtain ⟨b, l, hdec, hc⟩ := generate_ok_elim h
  have hlen : c.toList.length = 6 := by rw [hc]; exact totpCode_length _ _ _ _
  have hdig : c.toList.all isDigitChar = true := by
    rw [hc]; exact totpCode_all_digits _ _ _ _
  constructor
  · rw [verify_eval c t 1 hdec hlen hdig]
    simp only [show List.range (2 * 1 + 1) = [0, 1, 2] from rfl,
      List.map_cons, List.map_nil, List.any_cons, List.any_nil]
    have e0 : t + (((0 : Nat) : Int) - ((1 : Nat) : Int)) * 30 = t - 30 := by
      push_cast; ring
    rw [e0, ← hc, beq_self_eq_true, Bool.true_or]
  · intro c0 h0
    obtain ⟨b', l', hdec', hc0⟩ := generate_ok_elim h0
    rw [hdec] at hdec'
    have hbl : b :: l = b' :: l' := Option.some.inj hdec'
    rw [verify_eval c t 0 hdec hlen hdig]
    simp only [show List.range (2 * 0 + 1) = [0] from rfl, List.map_cons,
      List.map_nil, List.any_cons, List.any_nil, Bool.or_false]
    have e1 : t + (((0 : Nat) : Int) - ((0 : Nat) : Int)) * 30 = t := by
      push_cast; ring
    rw [e1, hc0, ← hbl]

/-- Witness for C2 (amended) at the RFC secret and `t = 59`: the code of
counter 0 is accepted with window 1 and rejected with window 0, the
current-step code being the different `287082`. -/
theorem verify_adjacent_window_witness :
    verify_totp_code "3132333435363738393031323334353637383930" "755224"
      59 1 = .ok true ∧
    verify_totp_code "3132333435363738393031323334353637383930" "755224"
      59 0 = .ok false := by
  obtain ⟨h1, h2⟩ := verify_adjacent_window
    "3132333435363738393031323334353637383930" "755224" 59 (by rfl)
  refine ⟨h1, ?_⟩
  rw [h2 "287082" (by rfl)]
  rfl

/-- C4: every failure of the seed-decryption step (invalid base64, wrong
ciphertext length, padding/integrity failure) surfaces to the caller as the
single opaque `500 "Decryption failed"`, independent of which sub-condition
failed. -/
theorem decrypt_failure_opaque (f : DecryptFail) (w : Bool)
    (st : Option String) :
    (decrypt_seed_endpoint (.ok ()) (.error f) w st).1 =
      .error ⟨500, "Decryption failed"⟩ := rfl

/-- C5 counterexample: the key-load failure message is not a fixed string —
it interpolates the underlying exception text (`f"Private key load failed:
{e}"`), so two different exception details produce two different user-facing
messages. -/
theorem key_load_message_not_fixed :
    (decrypt_seed_endpoint (.error "No such file or directory")
      (.ok "ab") true none).1 =
      .error ⟨500, "Private key load failed: No such file or directory"⟩ ∧
    (decrypt_seed_endpoint (.error "PEM parse error")
      (.ok "ab") true none).1 =
      .error ⟨500, "Private key load failed: PEM parse error"⟩ ∧
    "Private key load failed: No such file or directory" ≠
      "Private key load failed: PEM parse error" := by
  exact ⟨rfl, rfl, by decide⟩

/-- C5 amended: every error any of the three handlers surfaces carries one
of the fixed message strings — except the key-load failure, whose message is
exactly `"Private key load failed: "` followed by the underlying exception
text. -/
theorem boundary_error_details (dr : Except DecryptFail String) (w : Bool)
    (st stG : Option String) (r rV : Bool) (now nowV : Int)
    (cv : Option String) (e : String) (h1 h2 h3 h4 : HTTPException) :
    ((decrypt_seed_endpoint (.ok ()) dr w st).1 = .error h1 →
      h1.detail ∈ fixedDetails) ∧
    ((decrypt_seed_endpoint (.error e) dr w st).1 = .error h2 →
      h2.detail = "Private key load failed: " ++ e) ∧
    (generate_2fa stG r now = .error h3 → h3.detail ∈ fixedDetails) ∧
    (verify_2fa cv stG rV nowV = .error h4 → h4.detail ∈ fixedDetails) := by
  refine ⟨?_, ?_, ?_, ?_⟩
  · intro heq
    cases dr with
    | error f =>
      rw [show (decrypt_seed_endpoint (.ok ()) (.error f) w st).1 =
        .error ⟨500, "Decryption failed"⟩ from rfl] at heq
      rw [← Except.error.inj heq]
      decide
    | ok hex =>
      cases w with
      | true =>
        rw [show (decrypt_seed_endpoint (.ok ()) (.ok hex) true st).1 =
          .ok () from rfl] at heq
        cases heq
      | false =>
        rw [show (decrypt_seed_endpoint (.ok ()) (.ok hex) false st).1 =
          .error ⟨500, "Failed to persist seed"⟩ from rfl] at heq
        rw [← Except.error.inj heq]
        decide
  · intro heq
    rw [show (decrypt_seed_endpoint (.error e) dr w st).1 =
      .error ⟨500, "Private key load failed: " ++ e⟩ from rfl] at heq
    rw [← Except.error.inj heq]
  · intro heq
    cases stG with
    | none =>
      rw [show generate_2fa none r now =
        .error ⟨500, "Seed not decrypted yet"⟩ from rfl] at heq
      rw [← Except.error.inj heq]
      decide
    | some content =>
      unfold generate_2fa at heq
      cases r with
      | false =>
        simp only [Bool.false_eq_true, if_false] at heq
        rw [← Except.error.inj heq]
        decide
      | true =>
        simp only [if_true] at heq
        cases hg : generate_totp_code (pyStrip content) now with
        | error te => rw [hg] at heq; rw [← Except.error.inj heq]; decide
        | ok code => rw [hg] at heq; cases heq
  · intro heq
    unfold verify_2fa at heq
    by_cases hv : cv = none ∨ pyStrip (cv.getD "") = ""
    · rw [if_pos hv] at heq
      rw [← Except.error.inj heq]
      decide
    · rw [if_neg hv] at heq
      cases stG with
      | none => rw [← Except.error.inj heq]; decide
      | some content =>
        cases rV with
        | false =>
          simp only [Bool.false_eq_true, if_false] at heq
          rw [← Except.error.inj heq]
          decide
        | true =>
          simp only [if_true] at heq
          cases hg : verify_totp_code (pyStrip content) (cv.getD "") nowV
              with
          | error te => rw [hg] at heq; rw [← Except.error.inj heq]; decide
          | ok valid => rw [hg] at heq; cases heq

/-- Witness for C5 (amended): each conjunct applied at a concrete failing
run of its handler. -/
theorem boundary_error_details_witness :
    ("Decryption failed" ∈ fixedDetails) ∧
    (HTTPException.detail ⟨500, "Private key load failed: x"⟩ =
      "Private key load failed: " ++ "x") ∧
    ("Seed not decrypted yet" ∈ fixedDetails) ∧
    ("Missing code" ∈ fixedDetails) := by
  obtain ⟨p1, p2, p3, p4⟩ := boundary_error_details
    (.error .base64Invalid) true none none true true 0 0 none "x"
    ⟨500, "Decryption failed"⟩ ⟨500, "Private key load failed: x"⟩
    ⟨500, "Seed not decrypted yet"⟩ ⟨400, "Missing code"⟩
  exact ⟨p1 rfl, p2 rfl, p3 rfl, p4 rfl⟩

/-- C6: a decrypt-seed call that fails on key loading or on decryption
leaves the persisted seed slot exactly as it was. -/
theorem decrypt_failure_preserves_seed (kl : Except String Unit)
    (dr : Except DecryptFail String) (w : Bool) (st : Option String)
    (h : (∃ e, kl = Except.error e) ∨ (∃ f, dr = Except.error f)) :
    (decrypt_seed_endpoint kl dr w st).2 = st := by
  rcases h with ⟨e, rfl⟩ | ⟨f, rfl⟩
  · rfl
  · cases kl with
    | error e => rfl
    | ok u => cases u; rfl

/-- Witness for C6: a decryption failure over an existing stored seed. -/
theorem decrypt_failure_preserves_seed_witness :
    (decrypt_seed_endpoint (.ok ()) (.error .base64Invalid) true
      (some "old")).2 = some "old" :=
  decrypt_failure_preserves_seed _ _ _ _ (Or.inr ⟨_, rfl⟩)

/-- C7 counterexample: the candidate `" "` is a non-empty string, yet with
no seed stored `verify_2fa` rejects it with `400 "Missing code"`, not with
the seed-not-initialized failure the claim requires for every non-empty
candidate. -/
theorem verify_whitespace_not_seed_error :
    verify_2fa (some " ") none true 0 = .error ⟨400, "Missing code"⟩ ∧
    (" " : String) ≠ "" ∧
    (⟨400, "Missing code"⟩ : HTTPException) ≠
      ⟨500, "Seed not decrypted yet"⟩ := by
  refine ⟨rfl, by decide, by decide⟩

/-- C7 amended: if no seed has ever been stored, `generate_2fa` and
`verify_2fa` with a candidate that is not whitespace-only both fail with
`500 "Seed not decrypted yet"` instead of producing a code or a verdict. -/
theorem seed_not_initialized_errors (c : String) (r : Bool) (now : Int)
    (h : pyStrip c ≠ "") :
    generate_2fa none r now = .error ⟨500, "Seed not decrypted yet"⟩ ∧
    verify_2fa (some c) none r now =
      .error ⟨500, "Seed not decrypted yet"⟩ := by
  refine ⟨rfl, ?_⟩
  unfold verify_2fa
  rw [if_neg (by push_neg; exact ⟨by simp, by simpa using h⟩)]

/-- Witness for C7 (amended) with candidate `"123456"`. -/
theorem seed_not_initialized_errors_witness :
    generate_2fa none true 0 = .error ⟨500, "Seed not decrypted yet"⟩ ∧
    verify_2fa (some "123456") none true 0 =
      .error ⟨500, "Seed not decrypted yet"⟩ :=
  seed_not_initialized_errors "123456" true 0 (by decide)

/-- C9: a whitespace-only (in particular empty) candidate code is rejected
with `400 "Missing code"` before any seed lookup or TOTP verification, for
every store state, so no verification verdict is ever produced. -/
theorem missing_code_rejected (c : String) (st : Option String) (r : Bool)
    (now : Int) (h : pyStrip c = "") :
    verify_2fa (some c) st r now = .error ⟨400, "Missing code"⟩ := by
  unfold verify_2fa
  rw [if_pos (Or.inr (by simpa using h))]

/-- Witness for C9 with candidate `" \t"` over a populated store. -/
theorem missing_code_rejected_witness :
    verify_2fa (some "  ") (some "3132\n") true 0 =
      .error ⟨400, "Missing code"⟩ :=
  missing_code_rejected "  " (some "3132\n") true 0 (by decide)

/-- C10: an absent (`None`) code field fails with the same
`400 "Missing code"` as the empty string, for every store state — the
validation runs before the seed-existence check. -/
theorem absent_code_same_as_empty (st : Option String) (r : Bool)
    (now : Int) :
    verify_2fa none st r now = .error ⟨400, "Missing code"⟩ ∧
    verify_2fa (some "") st r now = .error ⟨400, "Missing code"⟩ := by
  exact ⟨rfl, rfl⟩

/-- C8: a successful decrypt stores the hex secret newline-terminated, and
the readers' trim recovers exactly that hex string. -/
theorem seed_roundtrip (hex : String) (st : Option String)
    (h : hex.toList.all isLowerHexChar = true) :
    (decrypt_seed_endpoint (.ok ()) (.ok hex) true st).2 =
      some (hex ++ "\n") ∧
    pyStrip (hex ++ "\n") = hex := by
  constructor
  · rfl
  · obtain ⟨d⟩ := hex
    rw [show (String.mk d) ++ "\n" = ⟨d ++ [Char.ofNat 10]⟩ from rfl]
    exact pyStrip_append_newline
      (fun c hc => not_ws_of_hex (List.all_eq_true.mp h c hc))

/-- Witness for C8 with the hex secret `"3132ab"`. -/
theorem seed_roundtrip_witness :
    (decrypt_seed_endpoint (.ok ()) (.ok "3132ab") true none).2 =
      some ("3132ab" ++ "\n") ∧
    pyStrip ("3132ab" ++ "\n") = "3132ab" :=
  seed_roundtrip "3132ab" none (by decide)

end PKI2FA
